import Mathlib

/-!
Verification of the session & request-dispatch layer of the pi-api-mcp-server
repository (src/index.ts, with the extracted filter parser from
src/build/index.js).  The TypeScript source is shallowly embedded: global
mutable state becomes an explicit `SessionState` record, `fetch` becomes an
explicit transport function, and JavaScript truthiness / string operations are
modelled faithfully.
-/

namespace PiApi

/-- JS truthiness of a nullable string (`!x` on `string | null`):
falsy exactly when the value is `null` or the empty string. -/
def strTruthy : Option String → Bool
  | none => false
  | some s => s != ""

/-- JS template-literal rendering of a nullable string: `null` prints as "null". -/
def jsTemplate : Option String → String
  | none => "null"
  | some s => s

/-- `headers.get("content-type") || ""`: a missing header becomes the empty string. -/
def headerOr : Option String → String
  | none => ""
  | some s => s

/-- The JS regex character class `[a-zA-Z]`. -/
def isAsciiAlpha (c : Char) : Bool :=
  (Char.ofNat 97 ≤ c && c ≤ Char.ofNat 122) || (Char.ofNat 65 ≤ c && c ≤ Char.ofNat 90)

/-- JS regex `.` excludes the four ECMAScript line terminators. -/
def isLineTerminator (c : Char) : Bool :=
  c = Char.ofNat 10 || c = Char.ofNat 13 || c = Char.ofNat 0x2028 || c = Char.ofNat 0x2029

/-- Does the first character list start with the second? -/
def charsStartWith : List Char → List Char → Bool
  | _, [] => true
  | [], _ :: _ => false
  | a :: as, b :: bs => a = b && charsStartWith as bs

/-- Does the first character list contain the second as a contiguous run? -/
def charsContain : List Char → List Char → Bool
  | [], needle => needle.isEmpty
  | a :: as, needle => charsStartWith (a :: as) needle || charsContain as needle

/-- `s.includes(sub)` on JS strings. -/
def jsIncludes (s sub : String) : Bool := charsContain s.data sub.data

/-- One attempt of the regex `([a-zA-Z]+)\(([a-zA-Z]+)\)=(.+)` at the current
position.  Because `(` , `)` and `=` are not alphabetic, the greedy `[a-zA-Z]+`
runs admit no backtracking, so the attempt succeeds exactly when the maximal
alphabetic run is followed by the literal, etc.; the final `.+` greedily takes
everything up to a line terminator and must be non-empty. -/
def tryFilterMatchAt (cs : List Char) : Option (List Char × List Char × List Char) :=
  let field := cs.takeWhile isAsciiAlpha
  let rest1 := cs.dropWhile isAsciiAlpha
  if field.isEmpty then none
  else
    match rest1 with
    | '(' :: rest2 =>
      let op := rest2.takeWhile isAsciiAlpha
      let rest3 := rest2.dropWhile isAsciiAlpha
      if op.isEmpty then none
      else
        match rest3 with
        | ')' :: '=' :: rest5 =>
          let value := rest5.takeWhile (fun c => !isLineTerminator c)
          if value.isEmpty then none else some (field, op, value)
        | _ => none
    | _ => none

/-- Leftmost match of the filter regex, as JS `String.prototype.match` finds it. -/
def findFilterMatch : List Char → Option (List Char × List Char × List Char)
  | [] => none
  | c :: rest =>
    match tryFilterMatchAt (c :: rest) with
    | some r => some r
    | none => findFilterMatch rest

/-- `seg.match(/([a-zA-Z]+)\(([a-zA-Z]+)\)=(.+)/)` returning the three capture
groups (field, operator, value) when the segment matches. -/
def matchFilterSegment (s : String) : Option (String × String × String) :=
  (findFilterMatch s.data).map (fun r => (⟨r.1⟩, ⟨r.2.1⟩, ⟨r.2.2⟩))

/-- `s.split(sep)` for a single-character separator, on character lists:
splitting the empty string yields one empty segment, as in JS. -/
def splitOnChar (sep : Char) : List Char → List (List Char)
  | [] => [[]]
  | c :: rest =>
    let r := splitOnChar sep rest
    if c = sep then [] :: r
    else
      match r with
      | [] => [[c]]
      | s :: ss => (c :: s) :: ss

/-- `filterString.split('&')` as a list of strings. -/
def splitAmp (s : String) : List String :=
  (splitOnChar '&' s.data).map (fun l => (⟨l⟩ : String))

/-- JS object property assignment on a string-keyed object kept as an ordered
association list: an existing key is overwritten in place, a new key appended. -/
def objSet : List (String × String) → String → String → List (String × String)
  | [], k, v => [(k, v)]
  | (k0, v0) :: rest, k, v =>
    if k0 = k then (k, v) :: rest else (k0, v0) :: objSet rest k v

/-- `field(operator)` composite query-parameter key. -/
def compositeKey (f op : String) : String := f ++ "(" ++ op ++ ")"

/-- `parseFilters` from src/build/index.js: falsy input yields `{}`; otherwise
split on `&` and insert `field(operator) -> value` for every matching segment,
silently skipping segments the regex does not match. -/
def parseFilters (filterString : String) : List (String × String) :=
  if filterString = "" then []
  else
    (splitAmp filterString).foldl
      (fun acc seg =>
        match matchFilterSegment seg with
        | some (f, op, v) => objSet acc (compositeKey f op) v
        | none => acc) []

/-- `parseFilters` as called on an optional argument: an absent argument is
falsy and yields `{}` through the same guard. -/
def parseFiltersOpt : Option String → List (String × String)
  | none => []
  | some s => parseFilters s

/-- The contribution of one segment to the final mapping: the composite key and
value when the segment matches, nothing otherwise. -/
def segEntry (seg : String) : Option (String × String) :=
  (matchFilterSegment seg).map (fun r => (compositeKey r.1 r.2.1, r.2.2))

/-- Decimal digit character, '0'-'9'. -/
def decDigitChar (d : Nat) : Char := Char.ofNat (48 + d)

/-- Decimal digits, most significant first; the structurally decreasing fuel
argument dominates the number so the fuel never runs out. -/
def natDigitsAux : Nat → Nat → List Char
  | 0, n => [decDigitChar n]
  | fuel + 1, n =>
    if n < 10 then [decDigitChar n]
    else natDigitsAux fuel (n / 10) ++ [decDigitChar (n % 10)]

/-- Decimal digits of a natural number, most significant first. -/
def natDigits (n : Nat) : List Char := natDigitsAux n n

/-- JS `Number.prototype.toString` on an integer-valued number. -/
def intToStr : Int → String
  | Int.ofNat n => ⟨natDigits n⟩
  | Int.negSucc n => "-" ++ (⟨natDigits (n + 1)⟩ : String)

/-- Hex digit character with uppercase letters, as `encodeURIComponent` emits. -/
def hexDigitChar (d : Nat) : Char :=
  if d < 10 then Char.ofNat (48 + d) else Char.ofNat (55 + d)

/-- UTF-8 encoding of a single code point, as byte values. -/
def utf8Bytes (c : Char) : List Nat :=
  let n := c.toNat
  if n < 0x80 then [n]
  else if n < 0x800 then [0xC0 + n / 0x40, 0x80 + n % 0x40]
  else if n < 0x10000 then
    [0xE0 + n / 0x1000, 0x80 + (n / 0x40) % 0x40, 0x80 + n % 0x40]
  else
    [0xF0 + n / 0x40000, 0x80 + (n / 0x1000) % 0x40, 0x80 + (n / 0x40) % 0x40,
      0x80 + n % 0x40]

/-- Percent-encoding of one byte: `%XX` with uppercase hex. -/
def pctEncodeByte (b : Nat) : List Char :=
  ['%', hexDigitChar (b / 16), hexDigitChar (b % 16)]

/-- The characters `encodeURIComponent` leaves unescaped:
`A-Z a-z 0-9 - _ . ! ~ * ' ( )`. -/
def uriUnreserved (c : Char) : Bool :=
  isAsciiAlpha c || (Char.ofNat 48 ≤ c && c ≤ Char.ofNat 57) ||
    c = '-' || c = '_' || c = '.' || c = '!' || c = '~' || c = '*' ||
    c = Char.ofNat 39 || c = '(' || c = ')'

/-- JS `encodeURIComponent`. -/
def encodeURIComponent (s : String) : String :=
  ⟨s.data.flatMap (fun c =>
    if uriUnreserved c then [c] else (utf8Bytes c).flatMap pctEncodeByte)⟩

/-- Character of one 6-bit group in the standard base64 alphabet. -/
def base64Char (n : Nat) : Char :=
  if n < 26 then Char.ofNat (65 + n)
  else if n < 52 then Char.ofNat (97 + (n - 26))
  else if n < 62 then Char.ofNat (48 + (n - 52))
  else if n = 62 then '+'
  else '/'

/-- Base64 encoding of a byte list, three bytes to four characters with `=`
padding, as `Buffer.prototype.toString("base64")` produces. -/
def base64Chunks : List Nat → List Char
  | [] => []
  | [b1] => [base64Char (b1 / 4), base64Char (b1 % 4 * 16), '=', '=']
  | [b1, b2] =>
    [base64Char (b1 / 4), base64Char (b1 % 4 * 16 + b2 / 16),
      base64Char (b2 % 16 * 4), '=']
  | b1 :: b2 :: b3 :: rest =>
    base64Char (b1 / 4) :: base64Char (b1 % 4 * 16 + b2 / 16) ::
      base64Char (b2 % 16 * 4 + b3 / 64) :: base64Char (b3 % 64) ::
        base64Chunks rest

def base64Encode (bytes : List Nat) : String := ⟨base64Chunks bytes⟩

/-- The module-level mutable state of src/index.ts: `API_BASE_URL`,
`apiUrlSet`, `authToken`, `orgId` and `connectionVerified`. -/
structure SessionState where
  apiUrl : Option String
  apiUrlSet : Bool
  authToken : Option String
  orgId : Option Int
  connectionVerified : Bool
deriving DecidableEq, Repr

/-- The request handed to `fetch` by `authenticatedRequest`: the composed URL,
the method, the two headers it always sets, and the optional JSON body (kept
abstract as the value that would be `JSON.stringify`-ed). -/
structure SentRequest (J : Type) where
  url : String
  method : String
  authHeader : String
  contentTypeHeader : String
  body : Option J
deriving DecidableEq

/-- A `fetch` response as the dispatcher consumes it: the status information,
the `content-type` header, and the three readings of the body the code may
take (`json()`, which can fail, `text()`, and `arrayBuffer()` as bytes). -/
structure FetchResponse (J : Type) where
  ok : Bool
  status : Nat
  statusText : String
  contentType : Option String
  jsonVal : Except String J
  textVal : String
  bytes : List Nat

deriving instance DecidableEq for Except

/-- A stub transport: what `fetch` does for a given request; an `error` is a
network-level rejection. -/
def Transport (J : Type) := SentRequest J → Except String (FetchResponse J)

/-- The decoded-response union returned by `authenticatedRequest`. -/
inductive ApiResult (J : Type) where
  | json (v : J)
  | binary (contentType : String) (data : String)
  | text (s : String)
deriving DecidableEq

/-- Classification of the errors `authenticatedRequest` throws. -/
inductive ReqError where
  | notConfigured
  | notAuthenticated
  | apiError (status : Nat) (statusText : String)
  | thrown (msg : String)
deriving DecidableEq, Repr

/-- The `Error.message` carried by each classified error in the source. -/
def reqErrorMessage : ReqError → String
  | ReqError.notConfigured =>
    "API URL not set. Please set the API URL using the set-api-url tool."
  | ReqError.notAuthenticated => "Not authenticated. Please authenticate first."
  | ReqError.apiError status statusText =>
    "API request failed with status " ++ (⟨natDigits status⟩ : String) ++ ": " ++ statusText
  | ReqError.thrown msg => msg

/-- The binary-ish content types of the dispatcher's second branch. -/
def isBinaryish (ct : String) : Bool :=
  jsIncludes ct "text/csv" || jsIncludes ct "application/pdf" ||
    jsIncludes ct "image/" || jsIncludes ct "application/vnd.openxmlformats"

def queryPairString (kv : String × String) : String :=
  encodeURIComponent kv.1 ++ "=" ++ encodeURIComponent kv.2

/-- `queryParams` after the `orgId` injection step: if `orgId` is non-null it
is written into the object, overwriting any caller-supplied value. -/
def effectiveParams (st : SessionState) (queryParams : List (String × String)) :
    List (String × String) :=
  match st.orgId with
  | some n => objSet queryParams "orgId" (intToStr n)
  | none => queryParams

/-- URL composition of `authenticatedRequest`: base + path, plus an encoded
query string when any query parameters exist. -/
def builtUrl (st : SessionState) (endpoint : String)
    (qp : List (String × String)) : String :=
  if 0 < qp.length then
    jsTemplate st.apiUrl ++ endpoint ++ "?"
      ++ String.intercalate "&" (qp.map queryPairString)
  else jsTemplate st.apiUrl ++ endpoint

/-- The request `authenticatedRequest` hands to `fetch` once its preconditions
pass: composed URL, method, the two headers, and the body (only attached for
the two body-carrying verbs). -/
def builtRequest {J : Type} (st : SessionState) (endpoint : String)
    (method : String) (body : Option J)
    (queryParams : List (String × String)) : SentRequest J :=
  { url := builtUrl st endpoint (effectiveParams st queryParams)
    method := method
    authHeader := "bearer " ++ jsTemplate st.authToken
    contentTypeHeader := "application/json"
    body := if body.isSome ∧ (method = "POST" ∨ method = "PUT") then body else none }

/-- `authenticatedRequest` from src/index.ts.  The returned list records the
requests actually handed to `fetch` (empty exactly when no network call was
attempted). -/
def authenticatedRequest {J : Type} (st : SessionState) (transport : Transport J)
    (endpoint : String) (method : String) (body : Option J)
    (queryParams : List (String × String)) :
    Except ReqError (ApiResult J) × List (SentRequest J) :=
  if st.apiUrlSet = false then (Except.error ReqError.notConfigured, [])
  else if strTruthy st.authToken = false then (Except.error ReqError.notAuthenticated, [])
  else
    let req : SentRequest J := builtRequest st endpoint method body queryParams
    match transport req with
    | Except.error msg => (Except.error (ReqError.thrown msg), [req])
    | Except.ok resp =>
      if resp.ok = false then
        (Except.error (ReqError.apiError resp.status resp.statusText), [req])
      else
        let ct := headerOr resp.contentType
        if jsIncludes ct "application/json" then
          match resp.jsonVal with
          | Except.ok v => (Except.ok (ApiResult.json v), [req])
          | Except.error m => (Except.error (ReqError.thrown m), [req])
        else if isBinaryish ct then
          (Except.ok (ApiResult.binary ct (base64Encode resp.bytes)), [req])
        else (Except.ok (ApiResult.text resp.textVal), [req])

theorem objSet_lookup_self (l : List (String × String)) (k v : String) :
    (objSet l k v).lookup k = some v := by
  induction l with
  | nil => simp [objSet, List.lookup]
  | cons e rest ih =>
    obtain ⟨k0, v0⟩ := e
    by_cases h : k0 = k
    · simp [objSet, h, List.lookup]
    · have hb : (k == k0) = false := beq_eq_false_iff_ne.mpr (fun hh => h hh.symm)
      simp [objSet, h, List.lookup, hb, ih]

theorem objSet_lookup_ne (l : List (String × String)) (k v k2 : String)
    (h : k2 ≠ k) : (objSet l k v).lookup k2 = l.lookup k2 := by
  have hb : (k2 == k) = false := beq_eq_false_iff_ne.mpr h
  induction l with
  | nil => simp [objSet, List.lookup, hb]
  | cons e rest ih =>
    obtain ⟨k0, v0⟩ := e
    by_cases he : k0 = k
    · subst he
      simp [objSet, List.lookup, hb]
    · by_cases h2 : k2 = k0
      · simp [objSet, he, List.lookup, h2]
      · have hb2 : (k2 == k0) = false := beq_eq_false_iff_ne.mpr h2
        simp [objSet, he, List.lookup, hb2, ih]

/-- Folding `objSet` over a list of entries: the final binding of a key is the
value of the last entry carrying that key, falling back to the initial object. -/
theorem foldl_objSet_lookup (entries : List (String × String))
    (init : List (String × String)) (k : String) :
    ((entries.foldl (fun acc e => objSet acc e.1 e.2) init).lookup k)
      = match (entries.filter (fun e => e.1 == k)).getLast? with
        | some e => some e.2
        | none => init.lookup k := by
  induction entries generalizing init with
  | nil => simp
  | cons e rest ih =>
    obtain ⟨k0, v0⟩ := e
    rw [List.foldl_cons, ih]
    by_cases h : k0 = k
    · have hb : (((k0, v0) : String × String).1 == k) = true := by
        simpa using h
      subst h
      rcases hr : rest.filter (fun e => e.1 == k0) with _ | ⟨e2, l2⟩
      · have hfilter : ((k0, v0) :: rest).filter (fun e => e.1 == k0) = [(k0, v0)] := by
          simp [List.filter_cons, hb, hr]
        rw [hr, hfilter]
        simp [objSet_lookup_self]
      · have hfilter :
            ((k0, v0) :: rest).filter (fun e => e.1 == k0) = (k0, v0) :: e2 :: l2 := by
          simp [List.filter_cons, hb, hr]
        rw [hr, hfilter, List.getLast?_cons_cons]
        obtain ⟨x, hx⟩ := Option.isSome_iff_exists.mp
          ((List.getLast?_isSome (l := e2 :: l2)).mpr (by simp))
        rw [hx]
    · have hb : (((k0, v0) : String × String).1 == k) = false := by
        simpa using beq_eq_false_iff_ne.mpr h
      have hne : k ≠ k0 := fun hh => h hh.symm
      have hfilter : ((k0, v0) :: rest).filter (fun e => e.1 == k)
          = rest.filter (fun e => e.1 == k) := by
        simp [List.filter_cons, hb]
      rw [hfilter]
      cases hg : (rest.filter (fun e => e.1 == k)).getLast? with
      | none => exact objSet_lookup_ne init k0 v0 k hne
      | some e2 => rfl

/-- The fold over segments in `parseFilters` is the fold of `objSet` over the
entries contributed by the matching segments. -/
theorem foldl_segments_eq (segments : List String) (init : List (String × String)) :
    segments.foldl
        (fun acc seg =>
          match matchFilterSegment seg with
          | some (f, op, v) => objSet acc (compositeKey f op) v
          | none => acc) init
      = (segments.filterMap segEntry).foldl (fun acc e => objSet acc e.1 e.2) init := by
  induction segments generalizing init with
  | nil => simp
  | cons seg rest ih =>
    rcases h : matchFilterSegment seg with _ | ⟨f, op, v⟩
    · simp [List.filterMap_cons, segEntry, h, ih]
    · simp [List.filterMap_cons, segEntry, h, ih]

/-- C1: `parseFilters` splits its input on `&`; each segment matching the
filter regex contributes the entry `field(operator) -> value` (with a later
segment overriding an earlier one for the same composite key), non-matching
segments are silently skipped, and in particular
`parseFilters "a(eq)=1&b(like)=x" = {"a(eq)": "1", "b(like)": "x"}`,
`parseFilters "garbage" = {}`, and empty or absent input yields `{}`. -/
theorem parseFilters_correct :
    (∀ s k, (parseFilters s).lookup k
        = ((((splitAmp s).filterMap segEntry).filter (fun e => e.1 == k)).getLast?).map
            Prod.snd)
    ∧ parseFilters "a(eq)=1&b(like)=x" = [("a(eq)", "1"), ("b(like)", "x")]
    ∧ parseFilters "garbage" = []
    ∧ parseFilters "" = []
    ∧ parseFiltersOpt none = [] := by
  refine ⟨?_, by decide, by decide, by decide, rfl⟩
  intro s k
  by_cases hs : s = ""
  · subst hs
    have h1 : parseFilters "" = [] := by decide
    have h2 : (splitAmp "").filterMap segEntry = [] := by decide
    simp [h1, h2, List.lookup]
  · rw [show parseFilters s
        = (splitAmp s).foldl
            (fun acc seg =>
              match matchFilterSegment seg with
              | some (f, op, v) => objSet acc (compositeKey f op) v
              | none => acc) [] from if_neg hs,
      foldl_segments_eq, foldl_objSet_lookup]
    cases ((splitAmp s).filterMap segEntry).filter (fun e => e.1 == k) |>.getLast? with
    | none => simp [List.lookup]
    | some e => rfl

/-- A ready session used as a concrete instance in witnesses. -/
def stReady : SessionState :=
  { apiUrl := some "http://h/api", apiUrlSet := true, authToken := some "tok",
    orgId := some 7, connectionVerified := false }

/-- A fresh unconfigured session. -/
def stNoUrl : SessionState :=
  { apiUrl := none, apiUrlSet := false, authToken := none, orgId := none,
    connectionVerified := false }

/-- A stub success response with content type `text/csv` and raw bytes "a,b". -/
def respCsv : FetchResponse Nat :=
  { ok := true, status := 200, statusText := "OK", contentType := some "text/csv",
    jsonVal := Except.error "not json", textVal := "a,b", bytes := [97, 44, 98] }

/-- C2: on a successful response, `authenticatedRequest` classifies by the
declared content type: a type containing `application/json` yields the decoded
JSON value, a binary-ish type (CSV, PDF, image, office document) yields
`{contentType, data := base64(bytes)}`, anything else yields the body text. -/
theorem authenticatedRequest_classifies_by_content_type {J : Type}
    (st : SessionState) (resp : FetchResponse J) (endpoint method : String)
    (body : Option J) (qp : List (String × String))
    (hUrl : st.apiUrlSet = true) (hTok : strTruthy st.authToken = true)
    (hOk : resp.ok = true) :
    (jsIncludes (headerOr resp.contentType) "application/json" = true →
        (authenticatedRequest st (fun _ => Except.ok resp) endpoint method body qp).1
          = (resp.jsonVal.map ApiResult.json).mapError ReqError.thrown)
    ∧ (jsIncludes (headerOr resp.contentType) "application/json" = false →
        isBinaryish (headerOr resp.contentType) = true →
        (authenticatedRequest st (fun _ => Except.ok resp) endpoint method body qp).1
          = Except.ok
              (ApiResult.binary (headerOr resp.contentType) (base64Encode resp.bytes)))
    ∧ (jsIncludes (headerOr resp.contentType) "application/json" = false →
        isBinaryish (headerOr resp.contentType) = false →
        (authenticatedRequest st (fun _ => Except.ok resp) endpoint method body qp).1
          = Except.ok (ApiResult.text resp.textVal)) := by
  refine ⟨fun hj => ?_, fun hj hb => ?_, fun hj hb => ?_⟩
  · simp only [authenticatedRequest, hUrl, hTok, hOk, hj]
    cases hv : resp.jsonVal <;> simp [hv, Except.map, Except.mapError]
  · simp only [authenticatedRequest, hUrl, hTok, hOk, hj]
    simp [hb]
  · simp only [authenticatedRequest, hUrl, hTok, hOk, hj]
    simp [hb]

/-- C2 witness: the csv stub with bytes "a,b" yields the base64-encoded binary
payload `{contentType := "text/csv", data := "YSxi"}`. -/
theorem authenticatedRequest_csv_witness :
    (authenticatedRequest stReady (fun _ => Except.ok respCsv)
        "/charts/1/csv" "GET" none []).1
      = Except.ok (ApiResult.binary "text/csv" "YSxi") := by
  have h := (authenticatedRequest_classifies_by_content_type stReady respCsv
      "/charts/1/csv" "GET" none [] (by decide) (by decide) (by decide)).2.1
      (by decide) (by decide)
  exact h.trans (by decide)

/-- C6: with no endpoint configured `authenticatedRequest` fails as
`notConfigured`, and with an endpoint but no credential as `notAuthenticated`;
in both cases the list of issued network calls is empty. -/
theorem authenticatedRequest_precondition_failures {J : Type} (st : SessionState)
    (t : Transport J) (endpoint method : String) (body : Option J)
    (qp : List (String × String)) :
    (st.apiUrlSet = false →
        authenticatedRequest st t endpoint method body qp
          = (Except.error ReqError.notConfigured, []))
    ∧ (st.apiUrlSet = true → strTruthy st.authToken = false →
        authenticatedRequest st t endpoint method body qp
          = (Except.error ReqError.notAuthenticated, [])) := by
  constructor
  · intro h
    simp [authenticatedRequest, h]
  · intro h1 h2
    simp [authenticatedRequest, h1, h2]

/-- C6 witness: an unconfigured session fails `notConfigured` without any call. -/
theorem authenticatedRequest_precondition_witness :
    authenticatedRequest (J := Nat) stNoUrl (fun _ => Except.error "network")
        "/categories" "GET" none []
      = (Except.error ReqError.notConfigured, []) :=
  (authenticatedRequest_precondition_failures stNoUrl (fun _ => Except.error "network")
      "/categories" "GET" none []).1 rfl

theorem objSet_length_pos (l : List (String × String)) (k v : String) :
    0 < (objSet l k v).length := by
  induction l with
  | nil => simp [objSet]
  | cons e rest ih =>
    obtain ⟨k0, v0⟩ := e
    by_cases h : k0 = k <;> simp [objSet, h]

theorem objSet_mem_self (l : List (String × String)) (k v : String) :
    (k, v) ∈ objSet l k v := by
  induction l with
  | nil => simp [objSet]
  | cons e rest ih =>
    obtain ⟨k0, v0⟩ := e
    by_cases h : k0 = k <;> simp [objSet, h, ih]

/-- When the object had no duplicate keys (as a JS object cannot), every entry
left under the written key carries the written value. -/
theorem objSet_key_val (l : List (String × String)) (k v : String)
    (hKeys : (l.map Prod.fst).Nodup) :
    ∀ p ∈ objSet l k v, p.1 = k → p.2 = v := by
  induction l with
  | nil =>
    intro p hp hk
    simp [objSet] at hp
    simp [hp]
  | cons e rest ih =>
    obtain ⟨k0, v0⟩ := e
    simp only [List.map_cons, List.nodup_cons] at hKeys
    intro p hp hk
    by_cases h : k0 = k
    · subst h
      simp only [objSet, if_pos rfl] at hp
      rcases List.mem_cons.mp hp with hp | hp
      · simp [hp]
      · exact absurd (hk ▸ List.mem_map_of_mem Prod.fst hp) hKeys.1
    · simp only [objSet, if_neg h] at hp
      rcases List.mem_cons.mp hp with hp | hp
      · subst hp
        exact absurd hk h
      · exact ih hKeys.2 p hp hk

theorem decDigitChar_unreserved (d : Nat) (h : d < 10) :
    uriUnreserved (decDigitChar d) = true := by
  interval_cases d <;> decide

theorem natDigitsAux_unreserved (fuel : Nat) :
    ∀ n, n ≤ fuel ∨ n < 10 → ∀ c ∈ natDigitsAux fuel n, uriUnreserved c = true := by
  induction fuel with
  | zero =>
    intro n h c hc
    have hn : n < 10 := by omega
    simp [natDigitsAux] at hc
    subst hc
    exact decDigitChar_unreserved n hn
  | succ fuel ih =>
    intro n h c hc
    by_cases h10 : n < 10
    · simp [natDigitsAux, h10] at hc
      subst hc
      exact decDigitChar_unreserved n h10
    · simp only [natDigitsAux, if_neg h10, List.mem_append, List.mem_singleton] at hc
      rcases hc with hc | hc
      · have hlt : n / 10 < n := Nat.div_lt_self (by omega) (by omega)
        exact ih (n / 10) (by omega) c hc
      · subst hc
        exact decDigitChar_unreserved _ (Nat.mod_lt _ (by omega))

theorem intToStr_unreserved (n : Int) :
    ∀ c ∈ (intToStr n).data, uriUnreserved c = true := by
  cases n with
  | ofNat m =>
    intro c hc
    exact natDigitsAux_unreserved m m (Or.inl le_rfl) c hc
  | negSucc m =>
    intro c hc
    rw [show intToStr (Int.negSucc m) = "-" ++ (⟨natDigits (m + 1)⟩ : String) from rfl,
      String.data_append] at hc
    rcases List.mem_append.mp hc with hc | hc
    · simp at hc
      subst hc
      decide
    · exact natDigitsAux_unreserved (m + 1) (m + 1) (Or.inl le_rfl) c hc

/-- Percent-encoding leaves a string of unreserved characters untouched. -/
theorem encodeURIComponent_of_unreserved (s : String)
    (h : ∀ c ∈ s.data, uriUnreserved c = true) : encodeURIComponent s = s := by
  obtain ⟨l⟩ := s
  simp only [encodeURIComponent]
  congr 1
  induction l with
  | nil => rfl
  | cons c rest ih =>
    simp only [List.flatMap_cons]
    rw [h c (by simp), if_pos rfl]
    have := ih (fun c hc => h c (List.mem_cons_of_mem _ hc))
    simp [this]

theorem queryPairString_orgId (n : Int) :
    queryPairString ("orgId", intToStr n) = "orgId=" ++ intToStr n := by
  show encodeURIComponent "orgId" ++ "=" ++ encodeURIComponent (intToStr n)
      = "orgId=" ++ intToStr n
  rw [encodeURIComponent_of_unreserved _ (intToStr_unreserved n),
    show encodeURIComponent "orgId" = "orgId" from by decide]
  exact congrArg (fun x => x ++ intToStr n) (by decide)

/-- Once the preconditions pass, `authenticatedRequest` hands exactly one
request — the built one — to the transport, whatever the outcome. -/
theorem authenticatedRequest_sends {J : Type} (st : SessionState) (t : Transport J)
    (endpoint method : String) (body : Option J) (qp : List (String × String))
    (hUrl : st.apiUrlSet = true) (hTok : strTruthy st.authToken = true) :
    (authenticatedRequest st t endpoint method body qp).2
      = [builtRequest st endpoint method body qp] := by
  simp only [authenticatedRequest, hUrl, hTok]
  rw [if_neg (by simp), if_neg (by simp)]
  cases t (builtRequest st endpoint method body qp) with
  | error m => rfl
  | ok resp =>
    show (if resp.ok = false then
        (Except.error (ReqError.apiError resp.status resp.statusText),
          [builtRequest st endpoint method body qp])
      else if jsIncludes (headerOr resp.contentType) "application/json" then
        match resp.jsonVal with
        | Except.ok v =>
          (Except.ok (ApiResult.json v), [builtRequest st endpoint method body qp])
        | Except.error m =>
          (Except.error (ReqError.thrown m), [builtRequest st endpoint method body qp])
      else if isBinaryish (headerOr resp.contentType) then
        (Except.ok (ApiResult.binary (headerOr resp.contentType) (base64Encode resp.bytes)),
          [builtRequest st endpoint method body qp])
      else (Except.ok (ApiResult.text resp.textVal),
          [builtRequest st endpoint method body qp])).2
      = [builtRequest st endpoint method body qp]
    split_ifs
    · rfl
    · cases resp.jsonVal <;> rfl
    · rfl
    · rfl

/-- C7: with a scope set to `n`, `authenticatedRequest` issues exactly one
request, whose query string is built from the parameters after writing
`orgId := toString n`; the encoded pair `orgId=n` appears in it, and every
entry under the `orgId` key carries the injected value — a caller-supplied
`orgId` is unconditionally overwritten. -/
theorem authenticatedRequest_injects_orgId {J : Type} (st : SessionState)
    (t : Transport J) (endpoint method : String) (body : Option J)
    (qp : List (String × String)) (n : Int)
    (hUrl : st.apiUrlSet = true) (hTok : strTruthy st.authToken = true)
    (hOrg : st.orgId = some n) (hKeys : (qp.map Prod.fst).Nodup) :
    ∃ req, (authenticatedRequest st t endpoint method body qp).2 = [req]
      ∧ req.url = jsTemplate st.apiUrl ++ endpoint ++ "?"
          ++ String.intercalate "&" ((objSet qp "orgId" (intToStr n)).map queryPairString)
      ∧ ("orgId=" ++ intToStr n) ∈ (objSet qp "orgId" (intToStr n)).map queryPairString
      ∧ ∀ p ∈ objSet qp "orgId" (intToStr n), p.1 = "orgId" → p.2 = intToStr n := by
  refine ⟨builtRequest st endpoint method body qp,
    authenticatedRequest_sends st t endpoint method body qp hUrl hTok, ?_, ?_, ?_⟩
  · show builtUrl st endpoint (effectiveParams st qp) = _
    rw [show effectiveParams st qp = objSet qp "orgId" (intToStr n) from by
      simp [effectiveParams, hOrg]]
    exact if_pos (objSet_length_pos qp "orgId" (intToStr n))
  · rw [← queryPairString_orgId n]
    exact List.mem_map_of_mem _ (objSet_mem_self qp "orgId" (intToStr n))
  · exact objSet_key_val qp "orgId" (intToStr n) hKeys

/-- C7 witness: with scope 7 and a caller-supplied conflicting `orgId`, the
single outgoing request carries the injected `orgId=7` pair. -/
theorem authenticatedRequest_orgId_witness :
    ∃ req, (authenticatedRequest (J := Nat) stReady (fun _ => Except.ok respCsv)
          "/categories" "GET" none [("orgId", "99"), ("page", "1")]).2 = [req]
      ∧ req.url = jsTemplate stReady.apiUrl ++ "/categories" ++ "?"
          ++ String.intercalate "&"
              ((objSet [("orgId", "99"), ("page", "1")] "orgId" (intToStr 7)).map
                queryPairString)
      ∧ ("orgId=" ++ intToStr 7)
          ∈ (objSet [("orgId", "99"), ("page", "1")] "orgId" (intToStr 7)).map
              queryPairString
      ∧ ∀ p ∈ objSet [("orgId", "99"), ("page", "1")] "orgId" (intToStr 7),
          p.1 = "orgId" → p.2 = intToStr 7 :=
  authenticatedRequest_injects_orgId stReady (fun _ => Except.ok respCsv)
    "/categories" "GET" none [("orgId", "99"), ("page", "1")] 7
    (by decide) (by decide) (by decide) (by decide)

/-- The `content` returned by a tool handler, reduced to its error bit and text. -/
structure ToolResult where
  isError : Bool
  text : String
deriving DecidableEq, Repr

def errRes (t : String) : ToolResult := ⟨true, t⟩

def okRes (t : String) : ToolResult := ⟨false, t⟩

/-- `s.split(p)` on character lists: every separator character splits, so
consecutive separators yield empty segments. -/
def splitOnPred (p : Char → Bool) : List Char → List (List Char)
  | [] => [[]]
  | c :: rest =>
    let r := splitOnPred p rest
    if p c then [] :: r
    else
      match r with
      | [] => [[c]]
      | s :: ss => (c :: s) :: ss

/-- `String.prototype.trim` (whitespace per `Char.isWhitespace`). -/
def jsTrim (s : String) : String :=
  ⟨((s.data.dropWhile Char.isWhitespace).reverse.dropWhile Char.isWhitespace).reverse⟩

/-- `s.split(/\s+/)` on a trimmed string: the empty string yields `[""]` as in
JS; otherwise the whitespace-separated words (whitespace per
`Char.isWhitespace`). -/
def splitWS (s : String) : List String :=
  if s = "" then [""]
  else
    ((splitOnPred (fun c => c.isWhitespace) s.data).map
        (fun l => (⟨l⟩ : String))).filter (fun w => w != "")

/-- The `set-api-url` tool.  URL syntax checking (`new URL(url)` succeeding or
throwing) is performed by the JS runtime, not by repository code, so it enters
the model as the oracle `validUrl`. -/
def setApiUrl (validUrl : String → Bool) (st : SessionState) (url : String) :
    SessionState × ToolResult :=
  if validUrl url then
    ({ st with apiUrl := some url, apiUrlSet := true, connectionVerified := false },
      okRes ("API URL set to: " ++ url
        ++ "\n\nNext step: Please authenticate to start using the API."))
  else
    (st, errRes
      "Invalid URL format. Please provide a valid URL including protocol (http:// or https://).")

/-- The `set-organization` tool. -/
def setOrganization (st : SessionState) (newOrgId : Int) : SessionState × ToolResult :=
  ({ st with orgId := some newOrgId },
    okRes ("Organization ID set to " ++ intToStr newOrgId))

/-- The `keep-session-alive` tool: optionally stages a provided token, probes
it with the keep-alive request, commits on success, and on failure restores the
original token (when one was provided) and clears `connectionVerified`. -/
def keepSessionAlive {J : Type} (st : SessionState) (t : Transport J)
    (token : Option String) : SessionState × ToolResult :=
  if st.apiUrlSet = false then
    (st, errRes "API URL not set. Please set the API URL first using the set-api-url tool.")
  else
    let originalToken := st.authToken
    let st1 := if strTruthy token then { st with authToken := token } else st
    if strTruthy st1.authToken = false then
      (st1, errRes "No token available. Please provide a token or authenticate with credentials.")
    else
      match (authenticatedRequest st1 t "/tokens/keepAlive" "POST" none []).1 with
      | Except.ok _ =>
        ({ st1 with connectionVerified := true },
          okRes (if strTruthy token then
              "✅ Token validated and set successfully. You are now authenticated."
            else "✅ Session kept alive successfully. Your token is valid."))
      | Except.error e =>
        let st2 := if strTruthy token then { st1 with authToken := originalToken } else st1
        ({ st2 with connectionVerified := false },
          errRes (if strTruthy token then
              "❌ The provided token is invalid or expired: " ++ reqErrorMessage e
                ++ "\nPlease try with another token or use authenticate-with-credentials."
            else "❌ Your session token is invalid or expired: " ++ reqErrorMessage e
                ++ "\nPlease authenticate again."))

/-- What the `/tokens` credential-exchange endpoint returned, as the handler
consumes it: status information, the error body text, and the `token` field of
the parsed JSON body when the body is an object with a string `token`. -/
structure TokensResponse where
  ok : Bool
  status : Nat
  errorText : String
  tokenField : Option String

/-- The `authenticate-with-credentials` tool; `exchange` is the outcome of the
`fetch` against `/tokens` (`error` being a thrown network failure). -/
def authenticateWithCredentials (st : SessionState)
    (exchange : Except String TokensResponse) (credentials : String) :
    SessionState × ToolResult :=
  if st.apiUrlSet = false then
    (st, errRes "API URL not set. Please set the API URL first using the set-api-url tool.")
  else
    let parts := splitWS (jsTrim credentials)
    if parts.length < 2 then
      (st, errRes "Invalid credentials format. Please provide as 'username password'")
    else
      let username := parts.headD ""
      let password := String.intercalate " " (parts.drop 1)
      if username = "" || password = "" then
        (st, errRes "Both username and password are required. Please provide as 'username password'")
      else
        match exchange with
        | Except.error m => (st, errRes ("Error authenticating: " ++ m))
        | Except.ok resp =>
          if resp.ok = false then
            (st, errRes ("Authentication failed: " ++ (⟨natDigits resp.status⟩ : String)
              ++ " - " ++ resp.errorText))
          else
            match resp.tokenField with
            | some tok =>
              ({ st with authToken := some tok, connectionVerified := true },
                okRes "✅ Authentication successful. You can now use other tools and resources.")
            | none => (st, errRes "Authentication failed: Invalid response format")

/-- The `logout` tool: requires the API URL set and a token; attempts the
remote invalidate call and clears the local token and flag whether or not that
call succeeds (the catch branch also clears both). -/
def logout {J : Type} (st : SessionState) (t : Transport J) :
    SessionState × ToolResult :=
  if st.apiUrlSet = false then
    (st, errRes "API URL not set. Please set the API URL first using the set-api-url tool.")
  else if strTruthy st.authToken = false then
    (st, errRes "Not authenticated yet. No need to logout.")
  else
    match (authenticatedRequest st t "/tokens/invalidate" "POST" none []).1 with
    | Except.ok _ =>
      ({ st with authToken := none, connectionVerified := false },
        okRes "Logged out successfully. Token invalidated.")
    | Except.error e =>
      ({ st with authToken := none, connectionVerified := false },
        errRes ("Error during logout: " ++ reqErrorMessage e ++ ". Token cleared locally."))

/-- `verifyConnection` from src/index.ts: returns the boolean, the updated
state, and the requests handed to `fetch` (empty when no call was attempted);
any failure of the probe is caught and becomes `false`. -/
def verifyConnection {J : Type} (st : SessionState) (t : Transport J) :
    Bool × SessionState × List (SentRequest J) :=
  if st.apiUrlSet = false ∨ strTruthy st.apiUrl = false then (false, st, [])
  else if strTruthy st.authToken = false then (false, st, [])
  else
    match authenticatedRequest st t "/tokens/keepAlive" "POST" none [] with
    | (Except.ok _, reqs) => (true, { st with connectionVerified := true }, reqs)
    | (Except.error _, reqs) => (false, { st with connectionVerified := false }, reqs)

/-- `initializeAndVerifyConnection` from src/index.ts: when both launch
parameters are present, verify; on a failed (or throwing) verification the
token is reset to null and the flag cleared. -/
def initializeAndVerifyConnection {J : Type} (st : SessionState) (t : Transport J) :
    SessionState :=
  if st.apiUrlSet = true ∧ strTruthy st.authToken = true then
    match verifyConnection st t with
    | (true, st1, _) => st1
    | (false, st1, _) => { st1 with authToken := none, connectionVerified := false }
  else st

theorem charsStartWith_append (needle rest : List Char) :
    charsStartWith (needle ++ rest) needle = true := by
  induction needle with
  | nil => cases rest <;> rfl
  | cons a tl ih => simp [charsStartWith, ih]

theorem charsContain_mid (pre mid post : List Char) :
    charsContain (pre ++ (mid ++ post)) mid = true := by
  induction pre with
  | nil =>
    cases mid with
    | nil => cases post <;> simp [charsContain, charsStartWith]
    | cons c tl =>
      show (charsStartWith ((c :: tl) ++ post) (c :: tl)
          || charsContain (tl ++ post) (c :: tl)) = true
      rw [charsStartWith_append]
      rfl
  | cons p ptl ih => simp [charsContain, ih]

/-- A string contains any middle piece of a concatenation. -/
theorem jsIncludes_append_mid (a m b : String) : jsIncludes (a ++ m ++ b) m = true := by
  show charsContain ((a ++ m) ++ b).data m.data = true
  rw [String.data_append, String.data_append, List.append_assoc]
  exact charsContain_mid a.data m.data b.data

/-- Every request `authenticatedRequest` issues carries the bearer header built
from the session's current token. -/
theorem authenticatedRequest_authHeader {J : Type} (st : SessionState)
    (t : Transport J) (endpoint method : String) (body : Option J)
    (qp : List (String × String)) :
    ∀ req ∈ (authenticatedRequest st t endpoint method body qp).2,
      req.authHeader = "bearer " ++ jsTemplate st.authToken := by
  intro req hreq
  by_cases hUrl : st.apiUrlSet = false
  · simp [authenticatedRequest, hUrl] at hreq
  · by_cases hTok : strTruthy st.authToken = false
    · simp [authenticatedRequest, hUrl, hTok] at hreq
    · have hU : st.apiUrlSet = true := by revert hUrl; cases st.apiUrlSet <;> simp
      have hT : strTruthy st.authToken = true := by
        revert hTok; cases strTruthy st.authToken <;> simp
      rw [authenticatedRequest_sends st t endpoint method body qp hU hT] at hreq
      rw [List.mem_singleton.mp hreq]
      rfl

/-- C3: when a committed credential is replaced through `keep-session-alive`
and the probe of the replacement fails, the previous credential is restored
(so any subsequent request's bearer header is built from the pre-call token),
`connectionVerified` is cleared, and the probe's error is surfaced in the
reported error text. -/
theorem keepSessionAlive_rollback {J : Type} (st : SessionState) (t : Transport J)
    (tok : String) (e : ReqError)
    (hUrl : st.apiUrlSet = true) (hCommitted : strTruthy st.authToken = true)
    (hTok : tok ≠ "")
    (hProbe : (authenticatedRequest { st with authToken := some tok } t
        "/tokens/keepAlive" "POST" none []).1 = Except.error e) :
    (keepSessionAlive st t (some tok)).1.authToken = st.authToken
    ∧ (keepSessionAlive st t (some tok)).1.connectionVerified = false
    ∧ (keepSessionAlive st t (some tok)).2.isError = true
    ∧ jsIncludes (keepSessionAlive st t (some tok)).2.text (reqErrorMessage e) = true
    ∧ ∀ endpoint2 method2 (body2 : Option J) qp2 req,
        req ∈ (authenticatedRequest (keepSessionAlive st t (some tok)).1 t
            endpoint2 method2 body2 qp2).2 →
        req.authHeader = "bearer " ++ jsTemplate st.authToken := by
  have htok : strTruthy (some tok) = true := by simp [strTruthy, hTok]
  rw [hUrl] at hProbe
  have hstate : (keepSessionAlive st t (some tok)).1
      = { st with connectionVerified := false } := by
    simp [keepSessionAlive, hUrl, htok, hProbe]
  have htext : (keepSessionAlive st t (some tok)).2
      = errRes ("❌ The provided token is invalid or expired: " ++ reqErrorMessage e
          ++ "\nPlease try with another token or use authenticate-with-credentials.") := by
    simp [keepSessionAlive, hUrl, htok, hProbe]
  refine ⟨by rw [hstate], by rw [hstate], by rw [htext]; rfl, ?_, ?_⟩
  · rw [htext]
    exact jsIncludes_append_mid _ _ _
  · intro e2 m2 b2 q2 req hreq
    rw [hstate] at hreq
    simpa using
      authenticatedRequest_authHeader { st with connectionVerified := false } t
        e2 m2 b2 q2 req hreq

/-- C3 witness: the rollback at a concrete committed session, a concrete
replacement token, and a probe failed by a network error. -/
theorem keepSessionAlive_rollback_witness :
    (keepSessionAlive (J := Nat) stReady (fun _ => Except.error "boom")
        (some "new")).1.authToken = stReady.authToken
    ∧ (keepSessionAlive (J := Nat) stReady (fun _ => Except.error "boom")
        (some "new")).1.connectionVerified = false
    ∧ (keepSessionAlive (J := Nat) stReady (fun _ => Except.error "boom")
        (some "new")).2.isError = true
    ∧ jsIncludes (keepSessionAlive (J := Nat) stReady (fun _ => Except.error "boom")
          (some "new")).2.text (reqErrorMessage (ReqError.thrown "boom")) = true
    ∧ ∀ endpoint2 method2 (body2 : Option Nat) qp2 req,
        req ∈ (authenticatedRequest
            (keepSessionAlive (J := Nat) stReady (fun _ => Except.error "boom")
              (some "new")).1
            (fun _ => Except.error "boom") endpoint2 method2 body2 qp2).2 →
        req.authHeader = "bearer " ++ jsTemplate stReady.authToken :=
  keepSessionAlive_rollback stReady (fun _ => Except.error "boom") "new"
    (ReqError.thrown "boom") (by decide) (by decide) (by decide) (by decide)

end PiApi

namespace PiApi

/-- A launch-parameter state with a token but no API URL: reachable by starting
the process with only `--auth-token`. -/
def stTokenNoUrl : SessionState :=
  { apiUrl := none, apiUrlSet := false, authToken := some "tok", orgId := none,
    connectionVerified := false }

/-- C4 counterexample: a session with a credential present (but no endpoint
configured) on which `logout` returns an error and leaves the credential in
place — so local clearing is not unconditional over all credential-holding
states. -/
theorem logout_not_unconditional :
    strTruthy stTokenNoUrl.authToken = true
    ∧ (logout (J := Nat) stTokenNoUrl (fun _ => Except.error "net")).1.authToken
        = some "tok"
    ∧ (logout (J := Nat) stTokenNoUrl (fun _ => Except.error "net")).2.isError
        = true := by
  decide

/-- C4 (amended): for every session state with the endpoint configured and a
credential present, `logout` ends with the local credential cleared and
`connectionVerified` false, whether the remote invalidate call succeeds or
fails. -/
theorem logout_clears_locally {J : Type} (st : SessionState) (t : Transport J)
    (hUrl : st.apiUrlSet = true) (hTok : strTruthy st.authToken = true) :
    (logout st t).1.authToken = none
    ∧ (logout st t).1.connectionVerified = false := by
  unfold logout
  rw [if_neg (by simp [hUrl]), if_neg (by simp [hTok])]
  cases (authenticatedRequest st t "/tokens/invalidate" "POST" none []).1 <;>
    exact ⟨rfl, rfl⟩

/-- C4 witness: the local clearing at a concrete session whose remote
invalidate call fails with a network error. -/
theorem logout_clears_locally_witness :
    (logout (J := Nat) stReady (fun _ => Except.error "net")).1.authToken = none
    ∧ (logout (J := Nat) stReady (fun _ => Except.error "net")).1.connectionVerified
        = false :=
  logout_clears_locally stReady (fun _ => Except.error "net") (by decide) (by decide)

/-- C8: `set-api-url` with a syntactically invalid URL fails with the
validation error and leaves the whole state unchanged; with a valid URL it
replaces the endpoint and clears `connectionVerified` whatever its prior value,
leaving the credential in place. -/
theorem setApiUrl_spec (validUrl : String → Bool) (st : SessionState) (url : String) :
    (validUrl url = false →
        setApiUrl validUrl st url
          = (st, errRes
              "Invalid URL format. Please provide a valid URL including protocol (http:// or https://)."))
    ∧ (validUrl url = true →
        (setApiUrl validUrl st url).1
            = { st with apiUrl := some url, apiUrlSet := true, connectionVerified := false }
          ∧ (setApiUrl validUrl st url).1.authToken = st.authToken
          ∧ (setApiUrl validUrl st url).2.isError = false) := by
  constructor
  · intro h
    simp [setApiUrl, h]
  · intro h
    exact ⟨by simp [setApiUrl, h], by simp [setApiUrl, h], by simp [setApiUrl, h, okRes]⟩

/-- C8 witness: setting a valid URL on a session replaces the endpoint, clears
the verified flag and keeps the token. -/
theorem setApiUrl_witness :
    (setApiUrl (fun u => u != "") stReady "http://new/api").1
        = { stReady with
            apiUrl := some "http://new/api"
            apiUrlSet := true
            connectionVerified := false }
      ∧ (setApiUrl (fun u => u != "") stReady "http://new/api").1.authToken
          = stReady.authToken
      ∧ (setApiUrl (fun u => u != "") stReady "http://new/api").2.isError = false :=
  (setApiUrl_spec (fun u => u != "") stReady "http://new/api").2 (by decide)

/-- C9: `verifyConnection` returns false with no network call when the endpoint
or the credential is absent; with both present it issues exactly the keep-alive
probe, returning true and setting `connectionVerified` on success and returning
false and clearing it on any failure — in every case the caller receives only
the boolean (the embedding is total, the probe's error never escapes). -/
theorem verifyConnection_spec {J : Type} (st : SessionState) (t : Transport J) :
    ((st.apiUrlSet = false ∨ strTruthy st.apiUrl = false ∨ strTruthy st.authToken = false) →
        verifyConnection st t = (false, st, []))
    ∧ (st.apiUrlSet = true → strTruthy st.apiUrl = true → strTruthy st.authToken = true →
        (∀ v, (authenticatedRequest st t "/tokens/keepAlive" "POST" none []).1
            = Except.ok v →
          verifyConnection st t
            = (true, { st with connectionVerified := true },
                [builtRequest st "/tokens/keepAlive" "POST" none []]))
        ∧ (∀ e, (authenticatedRequest st t "/tokens/keepAlive" "POST" none []).1
            = Except.error e →
          verifyConnection st t
            = (false, { st with connectionVerified := false },
                [builtRequest st "/tokens/keepAlive" "POST" none []]))) := by
  constructor
  · intro h
    rcases h with h | h | h
    · rw [verifyConnection, if_pos (Or.inl h)]
    · rw [verifyConnection, if_pos (Or.inr h)]
    · by_cases h1 : st.apiUrlSet = false ∨ strTruthy st.apiUrl = false
      · rw [verifyConnection, if_pos h1]
      · rw [verifyConnection, if_neg h1, if_pos h]
  · intro hU hA hT
    have hsend := authenticatedRequest_sends st t "/tokens/keepAlive" "POST" none []
      hU hT
    constructor
    · intro v hv
      have hpair : authenticatedRequest st t "/tokens/keepAlive" "POST" none []
          = (Except.ok v, [builtRequest st "/tokens/keepAlive" "POST" none []]) :=
        Prod.ext hv hsend
      rw [verifyConnection, if_neg (by simp [hU, hA]), if_neg (by simp [hT]), hpair]
    · intro e he
      have hpair : authenticatedRequest st t "/tokens/keepAlive" "POST" none []
          = (Except.error e, [builtRequest st "/tokens/keepAlive" "POST" none []]) :=
        Prod.ext he hsend
      rw [verifyConnection, if_neg (by simp [hU, hA]), if_neg (by simp [hT]), hpair]

/-- A stub failing response: non-success status 401. -/
def respFail : FetchResponse Nat :=
  { ok := false, status := 401, statusText := "Unauthorized",
    contentType := some "text/plain", jsonVal := Except.error "no body",
    textVal := "denied", bytes := [] }

/-- C9 witness: against a stub returning a non-success status, `verifyConnection`
returns false, clears the flag, and issued exactly the probe call. -/
theorem verifyConnection_witness :
    verifyConnection stReady (fun _ => Except.ok respFail)
      = (false, { stReady with connectionVerified := false },
          [builtRequest stReady "/tokens/keepAlive" "POST" none []]) :=
  ((verifyConnection_spec stReady (fun _ => Except.ok respFail)).2
      (by decide) (by decide) (by decide)).2
    (ReqError.apiError 401 "Unauthorized") (by decide)

/-- `verifyConnection` never changes the stored token, only the flag. -/
theorem verifyConnection_preserves_token {J : Type} (st : SessionState)
    (t : Transport J) : (verifyConnection st t).2.1.authToken = st.authToken := by
  rw [verifyConnection]
  split_ifs
  · rfl
  · rfl
  · rcases hp : authenticatedRequest st t "/tokens/keepAlive" "POST" none []
      with ⟨r, reqs⟩
    cases r <;> rfl

/-- C10: at startup, when both launch parameters are present and the initial
verification probe fails, `initializeAndVerifyConnection` clears the credential
and the flag — unlike `verifyConnection` itself, which leaves the credential in
place on failure. -/
theorem initialize_clears_token_on_failed_probe {J : Type} (st : SessionState)
    (t : Transport J) (hUrl : st.apiUrlSet = true)
    (hTok : strTruthy st.authToken = true)
    (hFail : (verifyConnection st t).1 = false) :
    (initializeAndVerifyConnection st t).authToken = none
    ∧ (initializeAndVerifyConnection st t).connectionVerified = false
    ∧ (verifyConnection st t).2.1.authToken = st.authToken := by
  refine ⟨?_, ?_, verifyConnection_preserves_token st t⟩ <;>
  · rw [initializeAndVerifyConnection, if_pos ⟨hUrl, hTok⟩]
    rcases hv : verifyConnection st t with ⟨b, st1, reqs⟩
    have hb : b = false := by rw [hv] at hFail; exact hFail
    subst hb
    rfl

/-- C10 witness: a concrete pre-populated state whose probe is rejected ends
with the token gone, while the bare verification left it intact. -/
theorem initialize_clears_token_witness :
    (initializeAndVerifyConnection stReady (fun _ => Except.ok respFail)).authToken
        = none
    ∧ (initializeAndVerifyConnection stReady
          (fun _ => Except.ok respFail)).connectionVerified = false
    ∧ (verifyConnection stReady (fun _ => Except.ok respFail)).2.1.authToken
        = stReady.authToken :=
  initialize_clears_token_on_failed_probe stReady (fun _ => Except.ok respFail)
    (by decide) (by decide) (by decide)

end PiApi

namespace PiApi

/-- The claimed invariant: a verified session has the endpoint configured and a
credential stored. -/
def sessionInvariant (st : SessionState) : Prop :=
  st.connectionVerified = true → st.apiUrlSet = true ∧ st.authToken.isSome = true

/-- Startup states producible by `parseArgs`: both flags optional, `orgId`
unset, nothing verified yet, and `apiUrlSet` initialized as `!!API_BASE_URL`. -/
def validInitialState (st : SessionState) : Prop :=
  st.connectionVerified = false ∧ st.orgId = none ∧ st.apiUrlSet = strTruthy st.apiUrl

theorem invariant_of_verified_false (st : SessionState)
    (h : st.connectionVerified = false) : sessionInvariant st := by
  intro hc
  rw [h] at hc
  exact absurd hc (by decide)

theorem strTruthy_isSome (o : Option String) (h : strTruthy o = true) :
    o.isSome = true := by
  cases o <;> simp_all [strTruthy]

theorem setApiUrl_invariant (v : String → Bool) (st : SessionState) (url : String)
    (h : sessionInvariant st) : sessionInvariant (setApiUrl v st url).1 := by
  unfold setApiUrl
  split_ifs with hv
  · exact invariant_of_verified_false _ rfl
  · exact h

theorem setOrganization_invariant (st : SessionState) (n : Int)
    (h : sessionInvariant st) : sessionInvariant (setOrganization st n).1 :=
  fun hc => h hc

theorem verifyConnection_invariant {J : Type} (st : SessionState) (t : Transport J)
    (h : sessionInvariant st) : sessionInvariant (verifyConnection st t).2.1 := by
  unfold verifyConnection
  split_ifs with h1 h2
  · exact h
  · exact h
  · rcases hp : authenticatedRequest st t "/tokens/keepAlive" "POST" none []
      with ⟨r, reqs⟩
    cases r with
    | ok v =>
      intro _
      refine ⟨?_, ?_⟩
      · show st.apiUrlSet = true
        revert h1
        cases st.apiUrlSet <;> simp
      · show st.authToken.isSome = true
        refine strTruthy_isSome _ ?_
        revert h2
        cases strTruthy st.authToken <;> simp
    | error e => exact invariant_of_verified_false _ rfl

theorem keepSessionAlive_invariant {J : Type} (st : SessionState) (t : Transport J)
    (tok : Option String) (h : sessionInvariant st) :
    sessionInvariant (keepSessionAlive st t tok).1 := by
  by_cases hUrl : st.apiUrlSet = false
  · have hres : (keepSessionAlive st t tok).1 = st := by
      simp [keepSessionAlive, hUrl]
    rw [hres]
    exact h
  · have hU : st.apiUrlSet = true := by revert hUrl; cases st.apiUrlSet <;> simp
    by_cases htok : strTruthy tok = true
    · cases hp : (authenticatedRequest { st with authToken := tok } t
          "/tokens/keepAlive" "POST" none []).1 with
      | ok v =>
        rw [hU] at hp
        have hres : (keepSessionAlive st t tok).1
            = { st with authToken := tok, connectionVerified := true } := by
          simp [keepSessionAlive, hU, htok, hp]
        rw [hres]
        exact fun _ => ⟨hU, strTruthy_isSome tok htok⟩
      | error e =>
        rw [hU] at hp
        have hres : (keepSessionAlive st t tok).1
            = { st with connectionVerified := false } := by
          simp [keepSessionAlive, hU, htok, hp]
        rw [hres]
        exact invariant_of_verified_false _ rfl
    · have htokf : strTruthy tok = false := by revert htok; cases strTruthy tok <;> simp
      by_cases hAuth : strTruthy st.authToken = false
      · have hres : (keepSessionAlive st t tok).1 = st := by
          simp [keepSessionAlive, hU, htokf, hAuth]
        rw [hres]
        exact h
      · have hA : strTruthy st.authToken = true := by
          revert hAuth; cases strTruthy st.authToken <;> simp
        cases hp : (authenticatedRequest st t "/tokens/keepAlive" "POST" none []).1 with
        | ok v =>
          have hres : (keepSessionAlive st t tok).1
              = { st with connectionVerified := true } := by
            simp [keepSessionAlive, hU, htokf, hA, hp]
          rw [hres]
          exact fun _ => ⟨hU, strTruthy_isSome _ hA⟩
        | error e =>
          have hres : (keepSessionAlive st t tok).1
              = { st with connectionVerified := false } := by
            simp [keepSessionAlive, hU, htokf, hA, hp]
          rw [hres]
          exact invariant_of_verified_false _ rfl

theorem authenticateWithCredentials_invariant (st : SessionState)
    (ex : Except String TokensResponse) (c : String) (h : sessionInvariant st) :
    sessionInvariant (authenticateWithCredentials st ex c).1 := by
  unfold authenticateWithCredentials
  by_cases hUrl : st.apiUrlSet = false
  · rw [if_pos hUrl]
    exact h
  · rw [if_neg hUrl]
    have hU : st.apiUrlSet = true := by revert hUrl; cases st.apiUrlSet <;> simp
    dsimp only
    split_ifs with h1 h2
    · exact h
    · exact h
    · cases ex with
      | error m => exact h
      | ok resp =>
        dsimp only
        split_ifs with h3
        · exact h
        · cases hr : resp.tokenField with
          | some tokv => exact fun _ => ⟨hU, rfl⟩
          | none => exact h

theorem logout_invariant {J : Type} (st : SessionState) (t : Transport J)
    (h : sessionInvariant st) : sessionInvariant (logout st t).1 := by
  unfold logout
  split_ifs with h1 h2
  · exact h
  · exact h
  · cases hp : (authenticatedRequest st t "/tokens/invalidate" "POST" none []).1 with
    | ok v => exact invariant_of_verified_false _ rfl
    | error e => exact invariant_of_verified_false _ rfl

/-- One invocation of a session-lifecycle operation or of `verifyConnection`,
with the stubbed external world (URL oracle, transport, exchange outcome) it
runs against. -/
inductive LifecycleOp (J : Type) where
  | setUrl (validUrl : String → Bool) (url : String)
  | keepAlive (t : Transport J) (token : Option String)
  | authCreds (exchange : Except String TokensResponse) (credentials : String)
  | doLogout (t : Transport J)
  | setOrg (n : Int)
  | verify (t : Transport J)

/-- The state after one operation (results discarded). -/
def applyOp {J : Type} (st : SessionState) : LifecycleOp J → SessionState
  | LifecycleOp.setUrl v url => (setApiUrl v st url).1
  | LifecycleOp.keepAlive t tok => (keepSessionAlive st t tok).1
  | LifecycleOp.authCreds ex c => (authenticateWithCredentials st ex c).1
  | LifecycleOp.doLogout t => (logout st t).1
  | LifecycleOp.setOrg n => (setOrganization st n).1
  | LifecycleOp.verify t => (verifyConnection st t).2.1

/-- The state after a sequence of operations. -/
def runOps {J : Type} (st : SessionState) (ops : List (LifecycleOp J)) : SessionState :=
  ops.foldl applyOp st

theorem applyOp_preserves {J : Type} (st : SessionState) (op : LifecycleOp J)
    (h : sessionInvariant st) : sessionInvariant (applyOp st op) := by
  cases op with
  | setUrl v url => exact setApiUrl_invariant v st url h
  | keepAlive t tok => exact keepSessionAlive_invariant st t tok h
  | authCreds ex c => exact authenticateWithCredentials_invariant st ex c h
  | doLogout t => exact logout_invariant st t h
  | setOrg n => exact setOrganization_invariant st n h
  | verify t => exact verifyConnection_invariant st t h

/-- C5: in every state reachable from a valid startup state by any sequence of
the lifecycle operations and `verifyConnection`, a true `connectionVerified`
implies the endpoint is configured and a credential is stored — no operation
leaves the flag true while removing either. -/
theorem session_invariant_reachable {J : Type} (st0 : SessionState)
    (ops : List (LifecycleOp J)) (hInit : validInitialState st0) :
    sessionInvariant (runOps st0 ops) := by
  have h0 : sessionInvariant st0 := invariant_of_verified_false st0 hInit.1
  clear hInit
  induction ops generalizing st0 with
  | nil => exact h0
  | cons op rest ih => exact ih (applyOp st0 op) (applyOp_preserves st0 op h0)

/-- A stub success response with plain-text content. -/
def respText : FetchResponse Nat :=
  { ok := true, status := 200, statusText := "OK", contentType := some "text/plain",
    jsonVal := Except.error "not json", textVal := "ok", bytes := [] }

/-- A concrete operation sequence exercising every lifecycle operation. -/
def opsEx : List (LifecycleOp Nat) :=
  [LifecycleOp.setUrl (fun u => u != "") "http://h/api",
    LifecycleOp.keepAlive (fun _ => Except.ok respText) (some "tok"),
    LifecycleOp.setOrg 7,
    LifecycleOp.authCreds (Except.ok
      { ok := true, status := 200, errorText := "", tokenField := some "tok2" })
      "user pw",
    LifecycleOp.verify (fun _ => Except.error "net"),
    LifecycleOp.doLogout (fun _ => Except.error "net")]

/-- C5 witness: the invariant holds after a concrete operation sequence from a
concrete valid startup state. -/
theorem session_invariant_witness :
    validInitialState stNoUrl ∧ sessionInvariant (runOps stNoUrl opsEx) :=
  ⟨by constructor <;> simp [stNoUrl, strTruthy],
    session_invariant_reachable stNoUrl opsEx
      (by constructor <;> simp [stNoUrl, strTruthy])⟩

end PiApi
